import Mathlib

/-!
Shallow embedding of the unified requirements validation script of the
journaltrove-system repository (early validation mode), together with the
early-validation script it supersedes.  JavaScript `Map`s are modelled as
association lists with `Map.set` update-in-place-or-append semantics; JS
string truthiness on optional string fields is modelled explicitly.
-/

namespace JTV

/-- JS string truthiness for a possibly-absent string field:
`undefined` and the empty string are falsy. -/
def truthyOpt : Option String → Bool
  | none => false
  | some s => s != ""

/-- JS `a || b` on possibly-absent string values. -/
def jsOr (a b : Option String) : Option String :=
  if truthyOpt a then a else b

/-- Boolean prefix test on character lists. -/
def isPrefixOfL : List Char → List Char → Bool
  | [], _ => true
  | _ :: _, [] => false
  | a :: as, b :: bs => a == b && isPrefixOfL as bs

/-- Boolean substring test on character lists (pattern occurs contiguously). -/
def containsSubL (pat : List Char) : List Char → Bool
  | [] => isPrefixOfL pat []
  | c :: rest => isPrefixOfL pat (c :: rest) || containsSubL pat rest

/-- JS `s.includes(pat)`. -/
def jsIncludes (s pat : String) : Bool := containsSubL pat.data s.data

/-- JS `s.startsWith(pre)`. -/
def jsStartsWith (s pre : String) : Bool := isPrefixOfL pre.data s.data

/-- One element of a requirements file's `@graph` array, with the fields the
validator reads.  Absent JSON fields are `none`. -/
structure GraphItem where
  type : Option String := none
  atType : Option String := none
  id : Option String := none
  atId : Option String := none
  parent : Option String := none
  component : Option String := none
deriving DecidableEq

/-- A test case inside a test-mapping file. -/
structure TestCase where
  atId : Option String := none
  id : Option String := none
  name : Option String := none
  verifies : Option String := none
deriving DecidableEq

/-- A test suite inside a test-mapping file; `testCases` is `none` when the
field is absent or not an array. -/
structure TestSuite where
  testCases : Option (List TestCase) := none
deriving DecidableEq

/-- One element of a test-mapping file's `@graph` array. -/
structure MappingItem where
  type : Option String := none
  atType : Option String := none
  testSuites : Option (List TestSuite) := none
deriving DecidableEq

/-- The record stored in `allRequirements`: the spread of the item plus the
assigned `component` (the component name derived from the file path), which
overwrites any raw `component` field for registry purposes.  The raw JSON
`component` field is kept separately because the per-component map stores the
raw item. -/
structure ReqRecord where
  parent : Option String := none
  rawComponent : Option String := none
  component : String
deriving DecidableEq

/-- A test-to-requirement mapping pushed onto `testMappings`. -/
structure TestMapping where
  id : Option String := none
  name : Option String := none
  verifies : Option String := none
  component : String
deriving DecidableEq

/-- JS `Map.has`. -/
def mapHas {α : Type} : List (String × α) → String → Bool
  | [], _ => false
  | (k', _) :: rest, k => k' == k || mapHas rest k

/-- JS `Map.set`: overwrite the existing key in place, else append. -/
def mapSet {α : Type} : List (String × α) → String → α → List (String × α)
  | [], k, v => [(k, v)]
  | (k', v') :: rest, k, v =>
      if k' == k then (k, v) :: rest else (k', v') :: mapSet rest k v

/-- JS `Map.get`. -/
def mapGet {α : Type} : List (String × α) → String → Option α
  | [], _ => none
  | (k', v') :: rest, k => if k' == k then some v' else mapGet rest k

/-- The registry `allRequirements`, keyed by requirement id. -/
abbrev Registry := List (String × ReqRecord)

/-- `componentRequirements`: component name to map from id to the raw item. -/
abbrev CompReg := List (String × List (String × GraphItem))

/-- Mutable state built up while loading requirements files. -/
structure LoadState where
  allRequirements : Registry := []
  componentRequirements : CompReg := []
  missingIdLogs : Nat := 0
deriving DecidableEq

/-- `item.type === 'Requirement' || item['@type'] === 'Requirement'`. -/
def isRequirementItem (it : GraphItem) : Bool :=
  it.type == some "Requirement" || it.atType == some "Requirement"

/-- The effective identifier `item.id || item['@id']`, `none` when the result
is falsy (the `if (!id)` guard). -/
def itemIdOf (it : GraphItem) : Option String :=
  if truthyOpt it.id then it.id
  else if truthyOpt it.atId then it.atId
  else none

/-- The registry record for an item loaded under component `cn`:
`{ ...item, source: filePath, component: componentName }`. -/
def recordOf (cn : String) (it : GraphItem) : ReqRecord :=
  { parent := it.parent, rawComponent := it.component, component := cn }

/-- `componentRequirements` update: create the inner map if missing, then set. -/
def compSet (creg : CompReg) (cn i : String) (it : GraphItem) : CompReg :=
  mapSet creg cn (mapSet ((mapGet creg cn).getD []) i it)

/-- Processing of one `@graph` element of a requirements file loaded under
component `cn` (the `data['@graph'].forEach` body). -/
def processGraphItem (cn : String) (st : LoadState) (it : GraphItem) : LoadState :=
  if isRequirementItem it then
    match itemIdOf it with
    | none => { st with missingIdLogs := st.missingIdLogs + 1 }
    | some i =>
        { st with
          allRequirements := mapSet st.allRequirements i (recordOf cn it)
          componentRequirements := compSet st.componentRequirements cn i it }
  else st

/-- A requirements file as the loader sees it: missing on disk, malformed
JSON, or parsed with a component name derived from its path and an optional
`@graph` array (`none` when absent or not an array). -/
inductive ReqFileInput where
  | missing
  | malformed
  | parsed (componentName : String) (graph : Option (List GraphItem))
deriving DecidableEq

/-- Processing of one requirements file; every failure path calls
`process.exit(1)`, modelled as `Except.error 1`. -/
def processReqFile (st : LoadState) (f : ReqFileInput) : Except Nat LoadState :=
  match f with
  | .missing => .error 1
  | .malformed => .error 1
  | .parsed cn graph =>
      match graph with
      | none => .error 1
      | some items => .ok (items.foldl (processGraphItem cn) st)

/-- `requirementsFiles.forEach(...)`: sequential processing, aborting the
whole process on the first missing, malformed or graph-less file. -/
def loadReqFiles (files : List ReqFileInput) : Except Nat LoadState :=
  files.foldlM processReqFile {}

/-- `item.type === 'TestMappings' || item['@type'] === 'TestMappings'`. -/
def isTestMappingsItem (it : MappingItem) : Bool :=
  it.type == some "TestMappings" || it.atType == some "TestMappings"

/-- Extraction of one test case: pushed only when `testCase.verifies` is
truthy, with id `testCase['@id'] || testCase.id`. -/
def extractFromCase (cn : String) (acc : List TestMapping) (tc : TestCase) :
    List TestMapping :=
  if truthyOpt tc.verifies then
    acc ++ [{ id := jsOr tc.atId tc.id, name := tc.name,
              verifies := tc.verifies, component := cn }]
  else acc

/-- Extraction from one `@graph` element of a test-mapping file. -/
def extractFromItem (cn : String) (acc : List TestMapping) (it : MappingItem) :
    List TestMapping :=
  if isTestMappingsItem it then
    match it.testSuites with
    | none => acc
    | some suites =>
        suites.foldl (fun a su =>
          match su.testCases with
          | none => a
          | some tcs => tcs.foldl (extractFromCase cn) a) acc
  else acc

/-- A test-mapping file as the loader sees it. -/
inductive MapFileInput where
  | missing
  | malformed
  | parsed (componentName : String) (graph : Option (List MappingItem))
deriving DecidableEq

/-- Processing of one test-mapping file, aborting on failure as for
requirements files. -/
def processMapFile (acc : List TestMapping) (f : MapFileInput) :
    Except Nat (List TestMapping) :=
  match f with
  | .missing => .error 1
  | .malformed => .error 1
  | .parsed cn graph =>
      match graph with
      | none => .error 1
      | some items => .ok (items.foldl (extractFromItem cn) acc)

/-- `testMappingFiles.forEach(...)`. -/
def loadMapFiles (files : List MapFileInput) : Except Nat (List TestMapping) :=
  files.foldlM processMapFile []

/-! ### The `systemFormat` regular expression

`/^System\.\d+(\.\d+)*(\.[A-Za-z]+\.\d+(\.\d+)*)?$/`, embedded as a
`RegularExpression Char`; `.test` with both anchors is full-string
membership, decided by `RegularExpression.rmatch`. -/

/-- Character class as an alternation of its members. -/
def reClass (cs : List Char) : RegularExpression Char :=
  cs.foldr (fun c r => RegularExpression.char c + r) 0

/-- Literal string as a concatenation of its characters. -/
def reLit (s : String) : RegularExpression Char :=
  s.data.foldr (fun c r => RegularExpression.char c * r) 1

/-- The class `\d` (JS: the ASCII digits). -/
def reDigit : RegularExpression Char := reClass "0123456789".data

/-- The class `[A-Za-z]`. -/
def reAlpha : RegularExpression Char :=
  reClass "ABCDEFGHIJKLMNOPQRSTUVWXYZabcdefghijklmnopqrstuvwxyz".data

/-- One-or-more repetition `r+` read as `r r*`. -/
def rePlus (r : RegularExpression Char) : RegularExpression Char := r * r.star

/-- Optional occurrence `r?`. -/
def reOpt (r : RegularExpression Char) : RegularExpression Char := 1 + r

/-- The literal dot `\.`. -/
def reDot : RegularExpression Char := RegularExpression.char '.'

/-- `\d+`. -/
def reDigits1 : RegularExpression Char := rePlus reDigit

/-- `[A-Za-z]+`. -/
def reAlpha1 : RegularExpression Char := rePlus reAlpha

/-- The script's regex `^System\.\d+(\.\d+)*(\.[A-Za-z]+\.\d+(\.\d+)*)?$`,
parenthesised exactly as written. -/
def sysRe : RegularExpression Char :=
  reLit "System" * (reDot * reDigits1) * (reDot * reDigits1).star *
    reOpt (reDot * reAlpha1 * (reDot * reDigits1) * (reDot * reDigits1).star)

/-- The spec's grammar `System(\.\d+)+((\.[A-Za-z]+)(\.\d+)+)?`,
parenthesised exactly as written. -/
def grammarRe : RegularExpression Char :=
  reLit "System" * rePlus (reDot * reDigits1) *
    reOpt ((reDot * reAlpha1) * rePlus (reDot * reDigits1))

/-- `systemFormat.test(id)`. -/
def sysFormatTest (i : String) : Bool := sysRe.rmatch i.data

/-! ### The four early-validation checks (`runEarlyValidation`) -/

/-- Error contribution of one registry record in VALIDATION 1 (hierarchy):
a truthy `parent` that is component-scoped (contains `.{req.component}.`) or
system-scoped (starts with `System.`) must be a registry key. -/
def hierFlag (reg : Registry) (r : ReqRecord) : Nat :=
  if truthyOpt r.parent then
    let parent := r.parent.getD ""
    let isComponentSpecificParent :=
      jsIncludes parent ("." ++ r.component ++ ".")
    let expectParentToExist :=
      isComponentSpecificParent || jsStartsWith parent "System."
    if expectParentToExist && !(mapHas reg parent) then 1 else 0
  else 0

/-- `hierarchyErrors` after the `allRequirements.forEach` loop. -/
def hierarchyErrors (reg : Registry) : Nat :=
  (reg.map (fun e => hierFlag reg e.2)).sum

/-- Error contribution of one entry of a component's inner map in
VALIDATION 2 (component prefixes); `it.component` is the raw JSON field of
the stored item, compared with `!==`. -/
def prefixFlag (cn i : String) (it : GraphItem) : Nat :=
  if jsIncludes i ("." ++ cn ++ ".") && it.component != some cn then 1 else 0

/-- Error contribution of one component group; the `System` group is skipped
by an early `return`. -/
def prefixGroupErrors (cn : String) (reqs : List (String × GraphItem)) : Nat :=
  if cn == "System" then 0
  else (reqs.map (fun e => prefixFlag cn e.1 e.2)).sum

/-- `prefixErrors` after the `componentRequirements.forEach` loop. -/
def prefixErrors (creg : CompReg) : Nat :=
  (creg.map (fun g => prefixGroupErrors g.1 g.2)).sum

/-- Error contribution of one test mapping in VALIDATION 3: a falsy
`verifies` only warns; a truthy `verifies` that is not a registry key is an
error. -/
def testMapFlag (reg : Registry) (m : TestMapping) : Nat :=
  if !(truthyOpt m.verifies) then 0
  else if mapHas reg (m.verifies.getD "") then 0 else 1

/-- Warning contribution of one test mapping in VALIDATION 3. -/
def testMapWarnFlag (m : TestMapping) : Nat :=
  if truthyOpt m.verifies then 0 else 1

/-- `testMapErrors` after the `testMappings.forEach` loop. -/
def testMapErrors (reg : Registry) (maps : List TestMapping) : Nat :=
  (maps.map (testMapFlag reg)).sum

/-- Error contribution of one registry key in VALIDATION 4 (format). -/
def formatFlag (i : String) : Nat :=
  if sysFormatTest i then 0 else 1

/-- `formatErrors` after the `allRequirements.forEach` loop. -/
def formatErrors (reg : Registry) : Nat :=
  (reg.map (fun e => formatFlag e.1)).sum

/-- Results of `runEarlyValidation`: the four counters, the total, and the
`process.exit` code. -/
structure EarlyResult where
  hierarchyErrors : Nat
  prefixErrors : Nat
  testMapErrors : Nat
  formatErrors : Nat
  totalErrors : Nat
  exitCode : Nat
deriving DecidableEq

/-- `runEarlyValidation`: the four checks run in sequence, each adding its
count to `totalErrors` only in its nonzero branch, and the process exits 1
exactly when `totalErrors > 0`. -/
def runEarlyValidation (reg : Registry) (creg : CompReg)
    (maps : List TestMapping) : EarlyResult :=
  let h := hierarchyErrors reg
  let t1 := if h == 0 then 0 else 0 + h
  let p := prefixErrors creg
  let t2 := if p == 0 then t1 else t1 + p
  let m := testMapErrors reg maps
  let t3 := if m == 0 then t2 else t2 + m
  let f := formatErrors reg
  let t4 := if f == 0 then t3 else t3 + f
  { hierarchyErrors := h, prefixErrors := p, testMapErrors := m,
    formatErrors := f, totalErrors := t4,
    exitCode := if t4 > 0 then 1 else 0 }

/-- Outcome of a whole early-mode invocation: aborted during loading (with
the `process.exit` code) or completed with the check results. -/
inductive RunOutcome where
  | abortedLoad (exitCode : Nat)
  | completed (r : EarlyResult)
deriving DecidableEq

/-- A whole early-mode run: load requirements files, load test-mapping
files, then run the four checks. -/
def runEarly (reqFiles : List ReqFileInput) (mapFiles : List MapFileInput) :
    RunOutcome :=
  match loadReqFiles reqFiles with
  | .error c => .abortedLoad c
  | .ok st =>
      match loadMapFiles mapFiles with
      | .error c => .abortedLoad c
      | .ok maps =>
          .completed (runEarlyValidation st.allRequirements
            st.componentRequirements maps)

/-! ### Helper lemmas -/

theorem sum_map_eq_countP {α : Type} (f : α → Nat)
    (hf : ∀ x, f x = 0 ∨ f x = 1) (l : List α) :
    (l.map f).sum = l.countP (fun x => f x == 1) := by
  induction l with
  | nil => rfl
  | cons a l ih =>
      simp only [List.map_cons, List.sum_cons, List.countP_cons, ih]
      rcases hf a with h | h
      · simp [h]
      · simp [h]
        omega

theorem mapGet_mapSet_self {α : Type} (m : List (String × α)) (k : String)
    (v : α) : mapGet (mapSet m k v) k = some v := by
  induction m with
  | nil => simp [mapSet, mapGet]
  | cons p m ih =>
      obtain ⟨k', v'⟩ := p
      simp only [mapSet]
      cases h : k' == k
      · simp [mapGet, h, ih]
      · simp [mapGet]

theorem mapSet_mapSet_same {α : Type} (m : List (String × α)) (k : String)
    (v1 v2 : α) : mapSet (mapSet m k v1) k v2 = mapSet m k v2 := by
  induction m with
  | nil => simp [mapSet]
  | cons p m ih =>
      obtain ⟨k', v'⟩ := p
      simp only [mapSet]
      cases h : k' == k
      · simp [mapSet, h, ih]
      · simp [mapSet, h]

theorem hierFlag_zero_or_one (reg : Registry) (r : ReqRecord) :
    hierFlag reg r = 0 ∨ hierFlag reg r = 1 := by
  simp only [hierFlag]
  split_ifs <;> simp

theorem formatFlag_zero_or_one (i : String) :
    formatFlag i = 0 ∨ formatFlag i = 1 := by
  unfold formatFlag
  split_ifs <;> simp

theorem sysRe_grammarRe_lang_eq : sysRe.matches' = grammarRe.matches' := by
  simp [sysRe, grammarRe, rePlus, reOpt, mul_assoc]

end JTV

namespace JTV

/-- C1: in an early-validation run, a Requirement in the registry with a
non-empty parent that is component-scoped (contains `.{component}.`) or
system-scoped (starts with `System.`) is flagged by the hierarchy check with
exactly one MissingParentError exactly when the parent is not a registry
key; a Requirement whose parent is absent or empty, or neither component-
nor system-scoped, is never flagged; and the hierarchy error count counts
the flagged Requirements. -/
theorem C1_hierarchy_check (reg : Registry) (i : String) (r : ReqRecord)
    (_hmem : (i, r) ∈ reg) :
    (∀ p : String, r.parent = some p → p ≠ "" →
      (jsIncludes p ("." ++ r.component ++ ".") ||
          jsStartsWith p "System.") = true →
      (hierFlag reg r = 1 ↔ mapHas reg p = false)) ∧
    (∀ p : String, r.parent = some p →
      (jsIncludes p ("." ++ r.component ++ ".") ||
          jsStartsWith p "System.") = false →
      hierFlag reg r = 0) ∧
    (r.parent = none → hierFlag reg r = 0) ∧
    (r.parent = some "" → hierFlag reg r = 0) ∧
    hierarchyErrors reg = reg.countP (fun e => hierFlag reg e.2 == 1) := by
  refine ⟨?_, ?_, ?_, ?_,
    sum_map_eq_countP (fun (e : String × ReqRecord) => hierFlag reg e.2)
      (fun e => hierFlag_zero_or_one reg e.2) reg⟩
  · intro p hp hne hsc
    simp only [hierFlag, hp, truthyOpt, bne_iff_ne, ne_eq, hne,
      not_false_eq_true, if_true, Option.getD_some, hsc, Bool.true_and]
    cases hhas : mapHas reg p <;> simp [hhas]
  · intro p hp hsc
    simp [hierFlag, hp, truthyOpt, hsc]
  · intro hp
    simp [hierFlag, hp, truthyOpt]
  · intro hp
    simp [hierFlag, hp, truthyOpt]

/-- Scenario B registry: `System.1.1` with parent `System.9` absent. -/
def c1Reg : Registry :=
  [("System.1.1", { parent := some "System.9", component := "System" })]

/-- C1 witness: on the Scenario B registry, the hierarchy check flags the
requirement with exactly one error. -/
theorem C1_hierarchy_check_witness :
    hierFlag c1Reg { parent := some "System.9", component := "System" } = 1 :=
  ((C1_hierarchy_check c1Reg "System.1.1"
      { parent := some "System.9", component := "System" } (by decide)).1
    "System.9" rfl (by decide) (by decide)).mpr (by decide)

/-- C4: the ID-format check flags with exactly one FormatError exactly the
registry ids outside the language of the spec grammar
`System(\.\d+)+((\.[A-Za-z]+)(\.\d+)+)?`; the script's regex accepts
precisely that language; and in particular `Req.1` is flagged once. -/
theorem C4_format_check :
    (∀ s : String, sysFormatTest s = true ↔ s.data ∈ grammarRe.matches') ∧
    (∀ i : String, formatFlag i = 1 ↔ i.data ∉ grammarRe.matches') ∧
    (∀ reg : Registry,
      formatErrors reg = reg.countP (fun e => formatFlag e.1 == 1)) ∧
    formatFlag "Req.1" = 1 := by
  have hlang : ∀ s : String, sysFormatTest s = true ↔ s.data ∈ grammarRe.matches' := by
    intro s
    rw [sysFormatTest, ← sysRe_grammarRe_lang_eq]
    exact RegularExpression.rmatch_iff_matches' _ _
  refine ⟨hlang, ?_, ?_, by decide⟩
  · intro i
    rw [← hlang i]
    unfold formatFlag
    cases h : sysFormatTest i <;> simp [h]
  · intro reg
    exact sum_map_eq_countP (fun (e : String × ReqRecord) => formatFlag e.1)
      (fun e => formatFlag_zero_or_one e.1) reg

/-- C5: on every early-validation run that completes loading, the total
error count is the sum of the four per-check counts, the exit code is 0
exactly when the total is 0, and the run on zero requirements and zero
mappings reports 0 errors and exits 0. -/
theorem C5_totals_and_exit (reg : Registry) (creg : CompReg)
    (maps : List TestMapping) :
    ((runEarlyValidation reg creg maps).totalErrors =
      hierarchyErrors reg + prefixErrors creg + testMapErrors reg maps +
        formatErrors reg) ∧
    ((runEarlyValidation reg creg maps).exitCode = 0 ↔
      (runEarlyValidation reg creg maps).totalErrors = 0) ∧
    runEarly [] [] = .completed
      { hierarchyErrors := 0, prefixErrors := 0, testMapErrors := 0,
        formatErrors := 0, totalErrors := 0, exitCode := 0 } := by
  refine ⟨?_, ?_, by decide⟩
  · simp only [runEarlyValidation]
    split_ifs <;> simp_all only [beq_iff_eq] <;> omega
  · have hexit : (runEarlyValidation reg creg maps).exitCode =
        if (runEarlyValidation reg creg maps).totalErrors > 0 then 1 else 0 :=
      rfl
    rw [hexit]
    by_cases h : (runEarlyValidation reg creg maps).totalErrors > 0
    · rw [if_pos h]
      omega
    · rw [if_neg h]
      omega

/-- C6: no check short-circuits: each of the four error counts of a
completed run is the standalone check applied to the loaded data, so it is
unchanged when the inputs of the other checks change. -/
theorem C6_checks_independent (reg : Registry) (creg creg' : CompReg)
    (maps maps' : List TestMapping) :
    (runEarlyValidation reg creg maps).hierarchyErrors = hierarchyErrors reg ∧
    (runEarlyValidation reg creg maps).prefixErrors = prefixErrors creg ∧
    (runEarlyValidation reg creg maps).testMapErrors = testMapErrors reg maps ∧
    (runEarlyValidation reg creg maps).formatErrors = formatErrors reg ∧
    (runEarlyValidation reg creg maps).hierarchyErrors =
      (runEarlyValidation reg creg' maps').hierarchyErrors ∧
    (runEarlyValidation reg creg maps).formatErrors =
      (runEarlyValidation reg creg' maps').formatErrors ∧
    (runEarlyValidation reg creg maps).testMapErrors =
      (runEarlyValidation reg creg' maps).testMapErrors ∧
    (runEarlyValidation reg creg maps).prefixErrors =
      (runEarlyValidation reg creg maps').prefixErrors :=
  ⟨rfl, rfl, rfl, rfl, rfl, rfl, rfl, rfl⟩

/-- C9: a Requirement item with neither `id` nor `@id` is logged and
skipped: the registry and component maps are unchanged, and the four checks
(and hence the exit code) give the same results as without it. -/
theorem C9_missing_id_skipped (st : LoadState) (cn : String) (it : GraphItem)
    (hreq : isRequirementItem it = true) (hid : itemIdOf it = none)
    (maps : List TestMapping) :
    processGraphItem cn st it =
      { st with missingIdLogs := st.missingIdLogs + 1 } ∧
    (processGraphItem cn st it).allRequirements = st.allRequirements ∧
    (processGraphItem cn st it).componentRequirements =
      st.componentRequirements ∧
    runEarlyValidation (processGraphItem cn st it).allRequirements
        (processGraphItem cn st it).componentRequirements maps =
      runEarlyValidation st.allRequirements st.componentRequirements maps := by
  have h : processGraphItem cn st it =
      { st with missingIdLogs := st.missingIdLogs + 1 } := by
    simp [processGraphItem, hreq, hid]
  refine ⟨h, ?_, ?_, ?_⟩ <;> rw [h]

/-- C9 witness: a concrete Requirement item with no identifier is skipped
without touching the registry. -/
theorem C9_missing_id_skipped_witness :
    processGraphItem "iOS"
        { allRequirements := [], componentRequirements := [], missingIdLogs := 0 }
        { type := some "Requirement" } =
      { allRequirements := [], componentRequirements := [], missingIdLogs := 1 } :=
  (C9_missing_id_skipped
    { allRequirements := [], componentRequirements := [], missingIdLogs := 0 }
    "iOS" { type := some "Requirement" } (by decide) (by decide) []).1

/-- C10: in the unified validator's early mode, the component-prefix check
skips the `System` group entirely: a `System` group of any contents
contributes zero prefix errors, and adding any requirement to the `System`
group changes neither the prefix error count nor the whole check result. -/
theorem C10_system_group_exempt :
    (∀ inner : List (String × GraphItem),
      prefixGroupErrors "System" inner = 0) ∧
    (∀ (creg : CompReg) (inner : List (String × GraphItem)),
      prefixErrors (mapSet creg "System" inner) = prefixErrors creg) ∧
    (∀ (creg : CompReg) (i : String) (it : GraphItem),
      prefixErrors (compSet creg "System" i it) = prefixErrors creg) ∧
    (∀ (reg : Registry) (creg : CompReg) (maps : List TestMapping)
      (i : String) (it : GraphItem),
      runEarlyValidation reg (compSet creg "System" i it) maps =
        runEarlyValidation reg creg maps) := by
  have h1 : ∀ inner : List (String × GraphItem),
      prefixGroupErrors "System" inner = 0 := by
    intro inner
    simp [prefixGroupErrors]
  have h2 : ∀ (creg : CompReg) (inner : List (String × GraphItem)),
      prefixErrors (mapSet creg "System" inner) = prefixErrors creg := by
    intro creg inner
    induction creg with
    | nil => simp [mapSet, prefixErrors, h1]
    | cons g creg ih =>
        obtain ⟨cn, gin⟩ := g
        simp only [mapSet]
        cases h : cn == "System"
        · simp only [Bool.false_eq_true, if_false, prefixErrors, List.map_cons,
            List.sum_cons] at ih ⊢
          omega
        · have hcn : cn = "System" := by simpa using h
          subst hcn
          simp [prefixErrors, h1]
  have h3 : ∀ (creg : CompReg) (i : String) (it : GraphItem),
      prefixErrors (compSet creg "System" i it) = prefixErrors creg := by
    intro creg i it
    rw [compSet, h2]
  refine ⟨h1, h2, h3, ?_⟩
  intro reg creg maps i it
  simp only [runEarlyValidation, h3]

/-- C7 (amended): when two Requirement items carry the same id, the registry
after processing both is exactly the registry after processing only the
later one (last-write-wins), the id maps to the later record, no missing-id
log is added, and the hierarchy, test-mapping and format error counts equal
those of the run without the shadowed copy.  (The shadowed copy does remain
in its own component's map, where it can still add prefix errors.) -/
theorem C7_duplicate_ids_amended (st : LoadState) (cn1 cn2 X : String)
    (it1 it2 : GraphItem) (h1 : isRequirementItem it1 = true)
    (hid1 : itemIdOf it1 = some X) (h2 : isRequirementItem it2 = true)
    (hid2 : itemIdOf it2 = some X) (maps : List TestMapping) :
    (processGraphItem cn2 (processGraphItem cn1 st it1) it2).allRequirements =
      (processGraphItem cn2 st it2).allRequirements ∧
    mapGet (processGraphItem cn2 (processGraphItem cn1 st it1)
        it2).allRequirements X = some (recordOf cn2 it2) ∧
    (processGraphItem cn2 (processGraphItem cn1 st it1) it2).missingIdLogs =
      st.missingIdLogs ∧
    hierarchyErrors (processGraphItem cn2 (processGraphItem cn1 st it1)
        it2).allRequirements =
      hierarchyErrors (processGraphItem cn2 st it2).allRequirements ∧
    testMapErrors (processGraphItem cn2 (processGraphItem cn1 st it1)
        it2).allRequirements maps =
      testMapErrors (processGraphItem cn2 st it2).allRequirements maps ∧
    formatErrors (processGraphItem cn2 (processGraphItem cn1 st it1)
        it2).allRequirements =
      formatErrors (processGraphItem cn2 st it2).allRequirements := by
  have hall : (processGraphItem cn2 (processGraphItem cn1 st it1)
      it2).allRequirements = (processGraphItem cn2 st it2).allRequirements := by
    simp [processGraphItem, h1, hid1, h2, hid2, mapSet_mapSet_same]
  refine ⟨hall, ?_, ?_, by rw [hall], by rw [hall], by rw [hall]⟩
  · rw [hall]
    simp [processGraphItem, h2, hid2, mapGet_mapSet_self]
  · simp [processGraphItem, h1, hid1, h2, hid2]

/-- The duplicated item of the C7 counterexample. -/
def c7Item : GraphItem :=
  { type := some "Requirement", id := some "System.1.iOS.1" }

/-- The duplicated item loaded under component `iOS`. -/
def c7FileIOS : ReqFileInput := .parsed "iOS" (some [c7Item])

/-- The duplicated item loaded under component `Android`. -/
def c7FileAndroid : ReqFileInput := .parsed "Android" (some [c7Item])

/-- State after loading both copies. -/
def c7StDup : LoadState :=
  { allRequirements :=
      [("System.1.iOS.1", { parent := none, rawComponent := none,
                            component := "Android" })],
    componentRequirements :=
      [("iOS", [("System.1.iOS.1", c7Item)]),
       ("Android", [("System.1.iOS.1", c7Item)])],
    missingIdLogs := 0 }

/-- State after loading only the later copy. -/
def c7StOne : LoadState :=
  { allRequirements :=
      [("System.1.iOS.1", { parent := none, rawComponent := none,
                            component := "Android" })],
    componentRequirements := [("Android", [("System.1.iOS.1", c7Item)])],
    missingIdLogs := 0 }

/-- C7 counterexample: loading the same id under `iOS` and then `Android`
yields the same registry as loading only the `Android` copy and raises no
error, yet the prefix error count changes from 0 to 1 — the duplicate does
change one of the four error counts, contradicting the claim as stated. -/
theorem C7_counterexample :
    loadReqFiles [c7FileIOS, c7FileAndroid] = .ok c7StDup ∧
    loadReqFiles [c7FileAndroid] = .ok c7StOne ∧
    c7StDup.allRequirements = c7StOne.allRequirements ∧
    c7StDup.missingIdLogs = 0 ∧
    prefixErrors c7StDup.componentRequirements = 1 ∧
    prefixErrors c7StOne.componentRequirements = 0 := by
  refine ⟨rfl, rfl, rfl, rfl, by decide, by decide⟩

/-- C7 witness: the amended statement at the counterexample input. -/
theorem C7_duplicate_ids_amended_witness :
    (processGraphItem "Android" (processGraphItem "iOS"
        { allRequirements := [], componentRequirements := [],
          missingIdLogs := 0 } c7Item) c7Item).allRequirements =
      (processGraphItem "Android"
        { allRequirements := [], componentRequirements := [],
          missingIdLogs := 0 } c7Item).allRequirements :=
  (C7_duplicate_ids_amended
    { allRequirements := [], componentRequirements := [], missingIdLogs := 0 }
    "iOS" "Android" "System.1.iOS.1" c7Item c7Item (by decide) (by decide)
    (by decide) (by decide) []).1

theorem foldReq_error_of_malformed (files : List ReqFileInput) :
    ∀ st : LoadState, ReqFileInput.malformed ∈ files →
      files.foldlM processReqFile st = .error 1 := by
  induction files with
  | nil =>
      intro st h
      simp at h
  | cons f fs ih =>
      intro st h
      rcases List.mem_cons.mp h with hf | hf
      · cases hf
        rfl
      · cases f with
        | missing => rfl
        | malformed => rfl
        | parsed cn graph =>
            cases graph with
            | none => rfl
            | some items => exact ih (items.foldl (processGraphItem cn) st) hf

/-- C8: a malformed requirements file is fatal: the run aborts with exit
code 1 and never reaches the validation checks. -/
theorem C8_parse_error_fatal (files : List ReqFileInput)
    (mapFiles : List MapFileInput) (h : ReqFileInput.malformed ∈ files) :
    runEarly files mapFiles = .abortedLoad 1 ∧
    ∀ r : EarlyResult, runEarly files mapFiles ≠ .completed r := by
  have habort : loadReqFiles files = .error 1 :=
    foldReq_error_of_malformed files {} h
  have hrun : runEarly files mapFiles = .abortedLoad 1 := by
    simp [runEarly, habort]
  refine ⟨hrun, ?_⟩
  intro r hcontra
  rw [hrun] at hcontra
  cases hcontra

/-- C8 witness: a run whose only requirements file is malformed aborts with
exit code 1. -/
theorem C8_parse_error_fatal_witness :
    runEarly [ReqFileInput.malformed] [] = .abortedLoad 1 :=
  (C8_parse_error_fatal [ReqFileInput.malformed] [] (by decide)).1

theorem truthy_of_mem_extractFromCase (cn : String) (acc : List TestMapping)
    (tc : TestCase) (hacc : ∀ y ∈ acc, truthyOpt y.verifies = true) :
    ∀ x ∈ extractFromCase cn acc tc, truthyOpt x.verifies = true := by
  intro x hx
  unfold extractFromCase at hx
  cases h : truthyOpt tc.verifies
  · rw [h] at hx
    exact hacc x hx
  · rw [h] at hx
    simp only [if_true] at hx
    rcases List.mem_append.mp hx with hx | hx
    · exact hacc x hx
    · rcases List.mem_singleton.mp hx with rfl
      exact h

theorem truthy_of_mem_foldl_cases (cn : String) (tcs : List TestCase) :
    ∀ acc : List TestMapping, (∀ y ∈ acc, truthyOpt y.verifies = true) →
      ∀ x ∈ tcs.foldl (extractFromCase cn) acc, truthyOpt x.verifies = true := by
  induction tcs with
  | nil => exact fun acc hacc x hx => hacc x hx
  | cons tc tcs ih =>
      intro acc hacc x hx
      exact ih (extractFromCase cn acc tc)
        (truthy_of_mem_extractFromCase cn acc tc hacc) x hx

theorem truthy_of_mem_foldl_suites (cn : String) (suites : List TestSuite) :
    ∀ acc : List TestMapping, (∀ y ∈ acc, truthyOpt y.verifies = true) →
      ∀ x ∈ suites.foldl (fun a su =>
          match su.testCases with
          | none => a
          | some tcs => tcs.foldl (extractFromCase cn) a) acc,
        truthyOpt x.verifies = true := by
  induction suites with
  | nil => exact fun acc hacc x hx => hacc x hx
  | cons su suites ih =>
      intro acc hacc x hx
      refine ih _ ?_ x hx
      obtain ⟨tcopt⟩ := su
      cases tcopt with
      | none => exact hacc
      | some tcs => exact truthy_of_mem_foldl_cases cn tcs acc hacc

theorem truthy_of_mem_extractFromItem (cn : String) (acc : List TestMapping)
    (it : MappingItem) (hacc : ∀ y ∈ acc, truthyOpt y.verifies = true) :
    ∀ x ∈ extractFromItem cn acc it, truthyOpt x.verifies = true := by
  intro x hx
  unfold extractFromItem at hx
  cases hty : isTestMappingsItem it
  · rw [hty] at hx
    simp only [Bool.false_eq_true, if_false] at hx
    exact hacc x hx
  · rw [hty] at hx
    simp only [if_true] at hx
    cases hsuites : it.testSuites with
    | none =>
        rw [hsuites] at hx
        exact hacc x hx
    | some suites =>
        rw [hsuites] at hx
        exact truthy_of_mem_foldl_suites cn suites acc hacc x hx

theorem truthy_of_mem_items_foldl (cn : String) (items : List MappingItem) :
    ∀ acc : List TestMapping, (∀ y ∈ acc, truthyOpt y.verifies = true) →
      ∀ x ∈ items.foldl (extractFromItem cn) acc, truthyOpt x.verifies = true := by
  induction items with
  | nil => exact fun acc hacc x hx => hacc x hx
  | cons it items ih =>
      intro acc hacc x hx
      exact ih (extractFromItem cn acc it)
        (truthy_of_mem_extractFromItem cn acc it hacc) x hx

theorem truthy_of_loadMapFiles_aux (files : List MapFileInput) :
    ∀ (acc maps : List TestMapping),
      (∀ y ∈ acc, truthyOpt y.verifies = true) →
      files.foldlM processMapFile acc = .ok maps →
      ∀ x ∈ maps, truthyOpt x.verifies = true := by
  induction files with
  | nil =>
      intro acc maps hacc hok
      have h2 : (Except.ok acc : Except Nat (List TestMapping)) = .ok maps := hok
      injection h2 with h3
      subst h3
      exact hacc
  | cons f fs ih =>
      intro acc maps hacc hok
      cases f with
      | missing =>
          have h2 : (Except.error 1 : Except Nat (List TestMapping)) =
              .ok maps := hok
          cases h2
      | malformed =>
          have h2 : (Except.error 1 : Except Nat (List TestMapping)) =
              .ok maps := hok
          cases h2
      | parsed cn graph =>
          cases graph with
          | none =>
              have h2 : (Except.error 1 : Except Nat (List TestMapping)) =
                  .ok maps := hok
              cases h2
          | some items =>
              exact ih (items.foldl (extractFromItem cn) acc) maps
                (truthy_of_mem_items_foldl cn items acc hacc) hok

/-- Every mapping extracted from the test-mapping files has a truthy
`verifies` field: empty-`verifies` test cases never enter the list. -/
theorem truthy_of_loadMapFiles (files : List MapFileInput)
    (maps : List TestMapping) (hok : loadMapFiles files = .ok maps) :
    ∀ x ∈ maps, truthyOpt x.verifies = true :=
  truthy_of_loadMapFiles_aux files [] maps (by intro y hy; cases hy) hok

theorem testMapFlag_zero_or_one (reg : Registry) (m : TestMapping) :
    testMapFlag reg m = 0 ∨ testMapFlag reg m = 1 := by
  simp only [testMapFlag]
  split_ifs <;> simp

/-- C3: every TestMapping in the loaded list is flagged with exactly one
DanglingVerifiesError exactly when its `verifies` is not a registry key; a
test mapping with a falsy `verifies` triggers the warning branch, not the
error branch, and contributes nothing to the count; and the check error
count counts the flagged mappings. -/
theorem C3_test_mapping_check (reg : Registry) (files : List MapFileInput)
    (maps : List TestMapping) (hload : loadMapFiles files = .ok maps)
    (m : TestMapping) (hm : m ∈ maps) :
    truthyOpt m.verifies = true ∧
    (testMapFlag reg m = 1 ↔ mapHas reg (m.verifies.getD "") = false) ∧
    (∀ m' : TestMapping, truthyOpt m'.verifies = false →
      testMapFlag reg m' = 0 ∧ testMapWarnFlag m' = 1) ∧
    testMapErrors reg maps = maps.countP (fun x => testMapFlag reg x == 1) := by
  have htr : truthyOpt m.verifies = true := truthy_of_loadMapFiles files maps hload m hm
  refine ⟨htr, ?_, ?_, ?_⟩
  · simp only [testMapFlag, htr, Bool.not_true, Bool.false_eq_true, if_false]
    cases hhas : mapHas reg (m.verifies.getD "") <;> simp [hhas]
  · intro m' hm'
    constructor
    · simp [testMapFlag, hm']
    · simp [testMapWarnFlag, hm']
  · exact sum_map_eq_countP (testMapFlag reg)
      (fun x => testMapFlag_zero_or_one reg x) maps

/-- Scenario C test-mapping file: one test case verifying
`System.1.1.iOS.1`. -/
def c3File : MapFileInput :=
  .parsed "iOS" (some
    [{ type := some "TestMappings",
       testSuites := some
         [{ testCases := some
              [{ name := some "t1", verifies := some "System.1.1.iOS.1" }] }] }])

/-- The mapping the loader extracts from `c3File`. -/
def c3Mapping : TestMapping :=
  { id := none, name := some "t1", verifies := some "System.1.1.iOS.1",
    component := "iOS" }

/-- C3 witness: on Scenario C (empty registry) the extracted mapping is
flagged with exactly one error. -/
theorem C3_test_mapping_check_witness : testMapFlag [] c3Mapping = 1 :=
  ((C3_test_mapping_check [] [c3File] [c3Mapping] rfl c3Mapping
    (by decide)).2.1).mpr (by decide)

theorem prefixFlag_zero_or_one (cn i : String) (it : GraphItem) :
    prefixFlag cn i it = 0 ∨ prefixFlag cn i it = 1 := by
  simp only [prefixFlag]
  split_ifs <;> simp

/-- ComponentMismatchErrors the prefix check reports for a given id, summed
over all component groups. -/
def prefixErrorsForId (creg : CompReg) (i : String) : Nat :=
  (creg.map (fun g =>
    if g.1 == "System" then 0
    else ((g.2.filter (fun e => e.1 == i)).map
      (fun e => prefixFlag g.1 e.1 e.2)).sum)).sum

/-- The C2 claim as stated: every Requirement in the registry, and every
component name C in the grouping whose `.C.` occurs in the Requirement's
id, satisfies: the Requirement's component field equals C, or the check
reports exactly one ComponentMismatchError for that id. -/
def claimC2Stmt (st : LoadState) : Prop :=
  ∀ (i : String) (r : ReqRecord), (i, r) ∈ st.allRequirements →
    ∀ g ∈ st.componentRequirements,
      jsIncludes i ("." ++ g.1 ++ ".") = true →
      (r.component = g.1 ∨ prefixErrorsForId st.componentRequirements i = 1)

/-- An `iOS` requirement whose raw component field matches its group. -/
def c2ItemIOS : GraphItem :=
  { type := some "Requirement", id := some "System.2.iOS.7",
    component := some "iOS" }

/-- An `Android` requirement whose id embeds the other component `iOS`. -/
def c2ItemAndroid : GraphItem :=
  { type := some "Requirement", id := some "System.1.iOS.1" }

/-- The C2 counterexample input files. -/
def c2Files : List ReqFileInput :=
  [.parsed "iOS" (some [c2ItemIOS]), .parsed "Android" (some [c2ItemAndroid])]

/-- The state loaded from `c2Files`. -/
def c2State : LoadState :=
  { allRequirements :=
      [("System.2.iOS.7", { parent := none, rawComponent := some "iOS",
                            component := "iOS" }),
       ("System.1.iOS.1", { parent := none, rawComponent := none,
                            component := "Android" })],
    componentRequirements :=
      [("iOS", [("System.2.iOS.7", c2ItemIOS)]),
       ("Android", [("System.1.iOS.1", c2ItemAndroid)])],
    missingIdLogs := 0 }

/-- C2 counterexample: the requirement `System.1.iOS.1` is grouped under
`Android`, its id embeds the component name `iOS` and its component field is
not `iOS`, yet the prefix check reports no error at all for its id — the
check is group-local, so the claim as stated fails on this input. -/
theorem C2_counterexample :
    loadReqFiles c2Files = .ok c2State ∧ ¬ claimC2Stmt c2State := by
  refine ⟨rfl, ?_⟩
  intro h
  have hinst := h "System.1.iOS.1"
    { parent := none, rawComponent := none, component := "Android" }
    (by decide) ("iOS", [("System.2.iOS.7", c2ItemIOS)]) (by decide) (by decide)
  rcases hinst with h1 | h1
  · exact absurd h1 (by decide)
  · exact absurd h1 (by decide)

/-- C2 (amended): the prefix check is group-local: for every component
group C other than `System` and every entry (id, item) of C's inner map,
exactly one ComponentMismatchError is reported for that entry exactly when
the id contains `.C.` and the raw `component` field of the stored item
differs from C; ids are never checked against other components' names, and
the group count counts the flagged entries. -/
theorem C2_prefix_check_amended (creg : CompReg) (cn : String)
    (inner : List (String × GraphItem)) (_hmem : (cn, inner) ∈ creg)
    (hcn : cn ≠ "System") (i : String) (it : GraphItem)
    (_hit : (i, it) ∈ inner) :
    (prefixFlag cn i it = 1 ↔
      (jsIncludes i ("." ++ cn ++ ".") = true ∧ it.component ≠ some cn)) ∧
    (it.component = some cn → prefixFlag cn i it = 0) ∧
    (jsIncludes i ("." ++ cn ++ ".") = false → prefixFlag cn i it = 0) ∧
    prefixGroupErrors cn inner =
      inner.countP (fun e => prefixFlag cn e.1 e.2 == 1) := by
  have hcnb : (cn == "System") = false := by simpa using hcn
  refine ⟨?_, ?_, ?_, ?_⟩
  · cases hinc : jsIncludes i ("." ++ cn ++ ".")
    · simp [prefixFlag, hinc]
    · cases hcomp : it.component == some cn
      · simp [prefixFlag, hinc, hcomp]
      · simp [prefixFlag, hinc, hcomp]
  · intro hcomp
    simp [prefixFlag, hcomp]
  · intro hinc
    simp [prefixFlag, hinc]
  · simp only [prefixGroupErrors, hcnb, Bool.false_eq_true, if_false]
    exact sum_map_eq_countP (fun (e : String × GraphItem) => prefixFlag cn e.1 e.2)
      (fun e => prefixFlag_zero_or_one cn e.1 e.2) inner

/-- The inner map for the C2 amended-claim witness. -/
def c2wInner : List (String × GraphItem) :=
  [("System.1.iOS.1", { type := some "Requirement", id := some "System.1.iOS.1" })]

/-- C2 witness: a requirement grouped under `iOS` whose id contains `.iOS.`
and whose raw component field is absent is flagged with exactly one error. -/
theorem C2_prefix_check_amended_witness :
    prefixFlag "iOS" "System.1.iOS.1"
      { type := some "Requirement", id := some "System.1.iOS.1" } = 1 :=
  ((C2_prefix_check_amended [("iOS", c2wInner)] "iOS" c2wInner (by decide)
      (by decide) "System.1.iOS.1"
      { type := some "Requirement", id := some "System.1.iOS.1" }
      (by decide)).1).mpr ⟨by decide, by decide⟩

end JTV
